import Mathlib

/-!
Verification of the build-graph orchestration engine of the cppdevenv
repository (src/build-gnu-toolchain.py, src/weaver/utils.py,
src/weaver/build-gnu-toolchain.py) against its natural-language
specification.  Python values, exceptions and the small slices of library
behaviour the code relies on (subprocess, hashlib, dict union, keyword
binding) are embedded shallowly; every definition is translated from the
source files named in its doc comment.
-/

/-- Python exceptions raised by the embedded code paths. -/
inductive PyError
  | typeError
  | valueError
deriving DecidableEq

/-- Execution result wrapper, from class Ret in src/weaver/utils.py
(mirrored in src/build-gnu-toolchain.py): argument vector, exit status,
captured stdout and stderr. -/
structure Ret where
  args : List String
  returncode : Int
  stdout : Option String
  stderr : Option String
deriving DecidableEq

/-- The Ret(returncode) constructor branch of Ret.__init__
(src/weaver/utils.py lines 26-30): args, stdout and stderr are empty. -/
def Ret.ofCode (n : Int) : Ret :=
  ⟨[], n, none, none⟩

/-- Ret.__bool__ from src/weaver/utils.py lines 41-43: literally
`return bool(self.returncode)`, so a Ret is truthy exactly when its exit
status is non-zero.  (The copy in src/build-gnu-toolchain.py lines 111-113
even lacks the return statement, so bool() on it raises TypeError.) -/
def retBool (r : Ret) : Bool :=
  r.returncode != 0

/-- Python `a and b`: yields a when bool(a) is false, else b. -/
def pyAnd (a b : Ret) : Ret :=
  if retBool a then b else a

/-- Python `a or b`: yields a when bool(a) is true, else b. -/
def pyOr (a b : Ret) : Ret :=
  if retBool a then a else b

/-- Python `a or b` evaluates the right operand iff bool(a) is false. -/
def pyOrEvalsRhs (a : Ret) : Bool :=
  !retBool a

/-- Left-associated Python `and` chain over step results, instrumented
with the number of steps actually evaluated (the first step is always
evaluated; evaluation continues exactly while the running value is
truthy under retBool). -/
def andChainEval (first : Ret) (rest : List Ret) : Ret × Nat :=
  match rest with
  | [] => (first, 1)
  | b :: bs =>
    if retBool first then
      ((andChainEval b bs).fst, (andChainEval b bs).snd + 1)
    else
      (first, 1)

/-- The five-step chain of MakeProject.configure
(src/weaver/build-gnu-toolchain.py lines 430-433, identical in
src/build-gnu-toolchain.py lines 307-312): mkdir -p, cd, pre_config, the
external configure command, post_config, joined by Python `and`. -/
def configureChain (mkdirRet cdRet preRet cfgRet postRet : Ret) : Ret × Nat :=
  andChainEval mkdirRet [cdRet, preRet, cfgRet, postRet]

/-- Exit status of `/usr/bin/test -d path`: 0 when the directory exists,
1 otherwise (the guard used by GitRepo.update / update_bare). -/
def testDirRet (dirExists : Bool) : Ret :=
  Ret.ofCode (if dirExists then 0 else 1)

/-- GitRepo.update / update_bare guard chain
(src/weaver/build-gnu-toolchain.py lines 186-189,
src/build-gnu-toolchain.py lines 252-254):
`(run(test -d mirror) or initial_fetch()) and <fetch steps>`.
Returns the chain value paired with whether initial_fetch (the bare
clone) was evaluated, per Python `or` evaluation order. -/
def updateBare (dirExists : Bool) (cloneRet fetchRet : Ret) : Ret × Bool :=
  (pyAnd (pyOr (testDirRet dirExists) cloneRet) fetchRet,
   pyOrEvalsRhs (testDirRet dirExists))

/-- Python values flowing into hash_build_config: strings and bytes. -/
inductive PyVal
  | str (s : String)
  | bytes (b : List Nat)
deriving DecidableEq

/-- Python str(): always yields a str.  (The exact rendering chosen for
bytes is irrelevant below: sha256.update rejects every str.) -/
def pyStr : PyVal → PyVal
  | .str s => .str s
  | .bytes b => .str (toString b)

/-- hashlib sha256 modelled at its interface: the state is the absorbed
byte stream; update accepts only bytes-like objects and raises TypeError
on a str ("Strings must be encoded before hashing"). -/
def shaUpdate (st : List Nat) : PyVal → Except PyError (List Nat)
  | .bytes b => .ok (st ++ b)
  | .str _ => .error .typeError

/-- The update loop of hash_build_config
(src/build-gnu-toolchain.py lines 879-884, identical in
src/weaver/build-gnu-toolchain.py lines 977-982):
`for arg in argv: h.update(str(arg))`. -/
def hashUpdates (st : List Nat) : List PyVal → Except PyError (List Nat)
  | [] => .ok st
  | a :: rest =>
    match shaUpdate st (pyStr a) with
    | .ok st2 => hashUpdates st2 rest
    | .error e => .error e

/-- hash_build_config(*argv): absorb str(arg) for each arg, then digest
(the digest is the absorbed stream; the sha256 compression itself is
outside the repository and never reached on a non-empty argv). -/
def hashBuildConfig (argv : List PyVal) : Except PyError (List Nat) :=
  hashUpdates [] argv

/-- Formatting of one **kwargs entry inside GitRepo.clone
(src/weaver/build-gnu-toolchain.py line 153,
src/build-gnu-toolchain.py line 225):
the comprehension `for k, v in kwargs` iterates the dict, which yields
its KEYS; unpacking the key string into (k, v) succeeds only when the key
has exactly two characters, and otherwise raises ValueError.  On success
the entry renders as f"--{k.replace(chr(95), chr(45))}={v}". -/
def cloneKwargOpt (key : String) : Except PyError String :=
  match key.toList with
  | [k, v] =>
    .ok ("--" ++ String.mk [if k = '_' then '-' else k] ++ "=" ++ String.mk [v])
  | _ => .error .valueError

/-- The full kwargs comprehension of GitRepo.clone. -/
def cloneCmdOpts : List (String × String) → Except PyError (List String)
  | [] => .ok []
  | kv :: rest =>
    match cloneKwargOpt kv.fst with
    | .ok s => (cloneCmdOpts rest).map (fun l => s :: l)
    | .error e => .error e

/-- GitRepo.fetch_version(version) = shallow_clone(branch=version)
(src/weaver/build-gnu-toolchain.py lines 159-173): clone is reached with
kwargs {branch: version, depth: 1}, and the git command list is built by
expanding those kwargs. -/
def fetchVersionCmd (version : String) : Except PyError (List String) :=
  (cloneCmdOpts [(("branch"), version), (("depth"), ("1"))]).map
    (fun opts => ("git") :: ("--single-branch") :: opts)

/-- MakeProject._handle_conflicts
(src/weaver/build-gnu-toolchain.py lines 416-418,
src/build-gnu-toolchain.py lines 291-293), invoked once from
MakeProject.__init__ before anything else: its entire body is `pass`, so
it accepts every configuration and never reports a conflicting pair
(the error type records the pair such a report would carry). -/
def handleConflicts (_configureArgs : List String) : Except (String × String) Unit :=
  .ok ()

/-- One class in a MakeProject single-inheritance chain: the stored
_default_config list (a mutable class attribute) and the stored
_default_config_env mapping. -/
structure ClassNode where
  cfg : List String
  env : List (String × String)
deriving DecidableEq

/-- A linear inheritance chain; `base` is MakeProject itself (whose own
base, object, contributes nothing). -/
inductive Chain
  | base (node : ClassNode)
  | derived (node : ClassNode) (parent : Chain)
deriving DecidableEq

/-- MakeProject.default_config
(src/build-gnu-toolchain.py lines 376-382, same logic as
_get_default_config in src/weaver/build-gnu-toolchain.py lines 485-491):
`ret = cls._default_config` binds the stored list object itself, and
`ret += base.default_config()` extends that object in place, so the call
both returns the concatenation and overwrites the class's stored list
with it (recursively for every ancestor).  Returns the resolved list and
the mutated hierarchy. -/
def defaultConfig : Chain → List String × Chain
  | .base n => (n.cfg, .base n)
  | .derived n parent =>
    (n.cfg ++ (defaultConfig parent).fst,
     .derived ⟨n.cfg ++ (defaultConfig parent).fst, n.env⟩ (defaultConfig parent).snd)

/-- First-match lookup in an association list (a Python dict read). -/
def alookup {β : Type} (k : String) : List (String × β) → Option β
  | [] => none
  | kv :: rest => if kv.fst = k then some kv.snd else alookup k rest

/-- Python dict union `a | b` on association-list dicts: b's entries win
on every key collision (key order is irrelevant to an environment
mapping, so the model keeps a's surviving entries first). -/
def dictUnion (a b : List (String × String)) : List (String × String) :=
  a.filter (fun kv => (alookup kv.fst b).isNone) ++ b

/-- A value produced while walking the bases in default_config_env:
either a dict (an environment mapping) or a plain list — in particular
the empty LIST that the getattr fallback `lambda: []` returns when a
base class lacks the accessor. -/
inductive EnvVal
  | pyDict (entries : List (String × String))
  | pyList (entries : List String)
deriving DecidableEq

/-- Python's `|` as it occurs in default_config_env: a right-biased
union on two dicts, and a TypeError when one operand is a list (there
is no list-dict `|` in Python). -/
def pyUnionOp : EnvVal → EnvVal → Except PyError EnvVal
  | .pyDict a, .pyDict b => .ok (.pyDict (dictUnion a b))
  | _, _ => .error .typeError

/-- MakeProject.default_config_env
(src/build-gnu-toolchain.py lines 384-390, same shape as
_get_default_config_env in src/weaver/build-gnu-toolchain.py lines
497-503): `ret = cls._default_config_env`, then for each base
`ret = getattr(c, "default_config_env", lambda: [])() | ret` — the
subclass mapping is the right operand, so its entries would win.  When
the walk reaches a class without the accessor (object at the top level;
Project and Repo in the weaver file), the getattr fallback returns the
empty LIST, making the final union `[] | ret`. -/
def defaultConfigEnv : Chain → Except PyError EnvVal
  | .base n => pyUnionOp (.pyList []) (.pyDict n.env)
  | .derived n parent =>
    match defaultConfigEnv parent with
    | .ok v => pyUnionOp v (.pyDict n.env)
    | .error e => .error e

/-- Modelled from the spec: the resolved argument list is the subclass's
own entries followed by each ancestor's entries, most specific first. -/
def specResolvedCfg : Chain → List String
  | .base n => n.cfg
  | .derived n parent => n.cfg ++ specResolvedCfg parent

/-- flock's named option parameters (src/weaver/utils.py lines 86-116). -/
structure FlockParams where
  conflictExitCode : Option Int
  noFork : Bool
  exclusive : Bool
  nonblock : Bool
  close : Bool
  shared : Bool
  unlock : Bool
  wait : Option Nat
deriving DecidableEq

/-- The option list flock assembles from its parameters
(src/weaver/utils.py lines 99-115). -/
def flockOptions (p : FlockParams) : List String :=
  (match p.conflictExitCode with
   | some e => [("-E ") ++ toString e]
   | none => []) ++
  (if p.noFork then [("-n")] else []) ++
  (if p.exclusive then [("-x")] else []) ++
  (if p.nonblock then [("-n")] else []) ++
  (if p.close then [("-o")] else []) ++
  (if p.shared then [("-s")] else []) ++
  (if p.unlock then [("-u")] else []) ++
  (match p.wait with
   | some w => [("--timeout ") ++ toString w]
   | none => [])

/-- Truthiness lookup of a boolean keyword argument. -/
def lookupFlag (kw : List (String × Bool)) (name : String) : Bool :=
  (alookup name kw).getD false

/-- The keyword names in flock's signature that callers' kwargs can bind
to (only the boolean flags matter at the repository's call sites). -/
def flockSigNames : List String :=
  [("conflict_exit_code"), ("no_fork"), ("exclusive"), ("nonblock"),
   ("close"), ("shared"), ("unlock"), ("wait")]

/-- Binding of a caller's keyword arguments to flock's named parameters:
a flag is set only when the caller passed that exact name directly. -/
def bindFlockParams (kw : List (String × Bool)) : FlockParams :=
  ⟨none,
   lookupFlag kw ("no_fork"),
   lookupFlag kw ("exclusive"),
   lookupFlag kw ("nonblock"),
   lookupFlag kw ("close"),
   lookupFlag kw ("shared"),
   lookupFlag kw ("unlock"),
   none⟩

/-- subprocess.run (src/weaver/utils.py lines 46-47) forwards unknown
keyword arguments to Popen, which rejects them with TypeError; `res` is
the external process outcome used when the invocation is well-formed. -/
def runProc (argv : List String) (extraKwargs : List String) (res : Ret) :
    Except PyError Ret :=
  if extraKwargs = [] then
    .ok ⟨argv, res.returncode, res.stdout, res.stderr⟩
  else
    .error .typeError

/-- flock (src/weaver/utils.py lines 86-116): build the option list from
the bound parameters and invoke `flock <options> <path> <cmd>` through
run, forwarding any leftover keyword arguments. -/
def flock (p : FlockParams) (path : String) (cmd : List String)
    (extraKwargs : List String) (res : Ret) : Except PyError Ret :=
  runProc (("flock") :: flockOptions p ++ [path] ++ cmd) extraKwargs res

/-- The leftover keyword names flock receives from flock_try: the merged
dict is passed under the literal keyword name "kwargs" (which is not a
parameter of flock), followed by every caller keyword whose name is not
in flock's signature. -/
def flockTryForwarded (callerKwargs : List (String × Bool)) : List String :=
  ("kwargs") ::
    (callerKwargs.filter (fun kv => !flockSigNames.contains kv.fst)).map (fun kv => kv.fst)

/-- flock_try (src/weaver/utils.py lines 119-120):
`flock(path, cmd, kwargs=kwargs | dict(nonblock=True), **kwargs)` — the
nonblock flag is buried inside the keyword argument literally named
"kwargs"; flock's parameters are bound only from the caller's own
keywords, and the "kwargs" entry is forwarded to subprocess.run. -/
def flockTry (path : String) (cmd : List String)
    (callerKwargs : List (String × Bool)) (res : Ret) : Except PyError Ret :=
  flock (bindFlockParams callerKwargs) path cmd (flockTryForwarded callerKwargs) res

-- Theorems

/-- Claim C1: the claim says a Ret with returncode 0 converts to the
boolean that continues a short-circuiting `and` chain and a non-zero
returncode to the one that stops it.  The code inverts this: bool(Ret 0)
is false, so `and` stops at a success and keeps it, while a failure is
truthy and lets the chain continue. -/
theorem ret_bool_truthiness_inverted :
    retBool (Ret.ofCode 0) = false ∧
    pyAnd (Ret.ofCode 0) (Ret.ofCode 7) = Ret.ofCode 0 ∧
    retBool (Ret.ofCode 1) = true ∧
    pyAnd (Ret.ofCode 1) (Ret.ofCode 7) = Ret.ofCode 7 := by
  decide

/-- Claim C2: the claim says that when step k of the configure chain
fails, steps k+1..n are never invoked and the stage result is step k's
result.  With the code's truthiness, a failing first step (mkdir,
returncode 1) causes the SECOND step to be evaluated (two steps run, not
one) and the stage returns the second step's success instead of the
failure. -/
theorem configure_chain_continues_after_failure :
    configureChain (Ret.ofCode 1) (Ret.ofCode 0) (Ret.ofCode 0)
        (Ret.ofCode 0) (Ret.ofCode 0) =
      (Ret.ofCode 0, 2) := by
  decide

/-- Claim C3: the claim says hash_build_config yields equal hashes and
install paths for equal resolved configurations, differing ones otherwise.
The code never produces any hash: h.update is called with str(arg), and
sha256.update raises TypeError on every str, so any non-empty argument
list raises instead of hashing. -/
theorem hash_build_config_raises_type_error (v : PyVal) (vs : List PyVal) :
    hashBuildConfig (v :: vs) = Except.error PyError.typeError := by
  cases v <;> rfl

/-- Claim C4: the claim says update performs the bare clone iff the
mirror directory is absent.  Under the code's truthiness the `or` guard
evaluates initial_fetch exactly when `test -d` succeeds, i.e. the clone
is invoked precisely when the mirror already exists, and skipped when it
is absent — the opposite of the claim. -/
theorem update_clones_exactly_when_mirror_exists :
    (updateBare true (Ret.ofCode 0) (Ret.ofCode 0)).snd = true ∧
    (updateBare false (Ret.ofCode 0) (Ret.ofCode 0)).snd = false := by
  decide

/-- Claim C5: the claim says re-running fetch_version against an existing
checkout is a no-op success.  The call never gets that far: building the
clone command expands `for k, v in kwargs` over the dict's keys, and
unpacking the six-character key "branch" raises ValueError for every
version, existing checkout or not. -/
theorem fetch_version_raises_value_error (version : String) :
    fetchVersionCmd version = Except.error PyError.valueError := by
  rfl

/-- Claim C6: the claim says enabling two mutually conflicting options
fails configure before any process is spawned, naming the pair.  The
conflict hook is `pass`: it accepts every configuration and never
produces the error the claim requires. -/
theorem handle_conflicts_accepts_everything :
    handleConflicts [("--enable-a"), ("--enable-b")] = Except.ok () ∧
    ∀ cfg, handleConflicts cfg = Except.ok () :=
  ⟨rfl, fun _ => rfl⟩

/-- Claim C7: the claim says a resolution yields the subclass-first
concatenated argument list AND the environment merge in which the most
specific class wins every key collision.  The argument-list half holds
on a first resolution, but the environment accessor never returns any
merged mapping: the base-walk always ends at a class without the
accessor, where the getattr fallback yields the empty LIST, and
`[] | ret` raises TypeError — for every inheritance chain. -/
theorem default_config_env_never_merges (c : Chain) :
    (defaultConfig c).fst = specResolvedCfg c ∧
    defaultConfigEnv c = Except.error PyError.typeError := by
  induction c with
  | base n => exact ⟨rfl, rfl⟩
  | derived n p ih =>
    refine ⟨?_, ?_⟩
    · simp [defaultConfig, specResolvedCfg, ih.1]
    · simp [defaultConfigEnv, ih.2]

/-- Claim C8: the claim says flock_try runs the command under a
non-blocking lock and reports contention as a normal failure result.
In the code the nonblock flag travels inside a keyword literally named
"kwargs", which flock forwards to subprocess.run; Popen rejects the
unknown keyword, so every call raises TypeError instead of running
anything, for any path, command, caller keywords and process outcome. -/
theorem flock_try_always_raises_type_error (path : String) (cmd : List String)
    (kw : List (String × Bool)) (res : Ret) :
    flockTry path cmd kw res = Except.error PyError.typeError := by
  simp [flockTry, flock, runProc, flockTryForwarded]

theorem defaultConfig_rerun_len_ge (c : Chain) :
    ((defaultConfig c).fst).length ≤
      ((defaultConfig (defaultConfig c).snd).fst).length := by
  cases c with
  | base n => simp [defaultConfig]
  | derived n p =>
    simp only [defaultConfig, List.length_append]
    omega

/-- Claim C9: the class-level accessor is observably stateful: because
`ret += base.default_config()` mutates the stored class attribute, a
second call of default_config on a subclass whose parent resolves to a
non-empty list returns a strictly longer list than the first call. -/
theorem default_config_second_call_strictly_longer (own : ClassNode) (p : Chain)
    (h : (defaultConfig p).fst ≠ []) :
    ((defaultConfig (defaultConfig (Chain.derived own p)).snd).fst).length >
      ((defaultConfig (Chain.derived own p)).fst).length := by
  have hge := defaultConfig_rerun_len_ge p
  have hpos : 0 < ((defaultConfig p).fst).length := List.length_pos.mpr h
  simp only [defaultConfig, List.length_append]
  omega

/-- The ToolchainSupportLib level of the hierarchy, with its stored
_default_config and _default_config_env
(src/build-gnu-toolchain.py lines 409-416), above MakeProject whose own
stored lists are empty. -/
def toolchainSupportLibChain : Chain :=
  .derived
    ⟨[("--disable-static"), ("--pre" ++ "fix=\x7bpre" ++ "fix\x7d")],
     [(("LDFLAGS"), ("-Wl,-rpath,$\x7bpre" ++ "fix\x7d/lib")), (("CC"), ("\x7bcc\x7d")),
      (("CXX"), ("\x7bcxx\x7d")), (("LD"), ("\x7blinker\x7d"))]⟩
    (.base ⟨[], []⟩)

/-- The stored class attributes of LibGMP
(src/build-gnu-toolchain.py lines 444-445). -/
def libGMPNode : ClassNode :=
  ⟨[("--enable-cxx")], []⟩

theorem default_config_second_call_strictly_longer_witness :
    (defaultConfig toolchainSupportLibChain).fst ≠ [] ∧
    ((defaultConfig
        (defaultConfig (Chain.derived libGMPNode toolchainSupportLibChain)).snd).fst).length >
      ((defaultConfig (Chain.derived libGMPNode toolchainSupportLibChain)).fst).length :=
  ⟨by decide,
   default_config_second_call_strictly_longer libGMPNode toolchainSupportLibChain (by decide)⟩

